import Mathlib

/-!
Verification of `openai_realtime_voice_agent/app/recording_processor.py`
(class `AudioRecordingProcessor`), a Pipecat frame-processor stage that
records input/output audio while forwarding every frame unchanged.

The Python class is embedded shallowly: the processor's mutable attributes
become a state record, and each method becomes a pure function returning the
new state together with a trace of observable events (recorder-method calls,
the delegation to the parent frame handler, frames pushed downstream, and
diagnostic log records that carry the derived sample count).
-/

namespace RecordingProcessor

/-- A handle to an external `AudioRecorder` (opaque sink; identity only). -/
structure AudioRecorder where
  id : Nat
deriving DecidableEq, Repr

/-- Pipecat `FrameDirection` (passed through to `push_frame`; never inspected
by the processor's logic). -/
inductive FrameDirection where
  | downstream
  | upstream
deriving DecidableEq, Repr

/-- Direction tag of an audio frame: `InputAudioRawFrame`, `OutputAudioRawFrame`,
or a bare legacy `AudioRawFrame` (no direction metadata). -/
inductive DirectionTag where
  | input
  | output
  | unspecified
deriving DecidableEq, Repr

/-- The frame types `process_frame` distinguishes: `StartFrame`, `EndFrame`,
the audio frames (payload = raw bytes, as a list of byte values), and any
other frame, which gets no local handling. -/
inductive Frame where
  | startFrame
  | endFrame
  | audioChunk (tag : DirectionTag) (audio : List Nat)
  | other
deriving DecidableEq, Repr

/-- The four methods of the external recorder's contract. -/
inductive RecorderCall where
  | startRecording (clientId : String)
  | recordInputAudio (audio : List Nat)
  | recordOutputAudio (audio : List Nat)
  | stopRecording
deriving DecidableEq, Repr

/-- Observable events emitted by the processor: a call on a recorder handle,
the `super().process_frame` delegation, a `push_frame` to the next stage, and
an informational log record carrying the derived sample count. -/
inductive Event where
  | recorderCall (r : AudioRecorder) (c : RecorderCall)
  | superProcessFrame (f : Frame) (d : FrameDirection)
  | pushFrame (f : Frame) (d : FrameDirection)
  | log (numSamples : Nat)
deriving DecidableEq, Repr

/-- The mutable attributes of an `AudioRecordingProcessor` instance. -/
structure AudioRecordingProcessor where
  enable_recording : Bool
  client_id : String
  record_input : Bool
  recorder : Option AudioRecorder
deriving DecidableEq, Repr

/-- `client_id or "unknown"`: Python truthiness makes both `None` and the
empty string fall back to `"unknown"`. -/
def defaultClientId (client_id : Option String) : String :=
  match client_id with
  | none => "unknown"
  | some s => if s.isEmpty then "unknown" else s

/-- `num_samples = len(audio_bytes) // 2` (16-bit = 2 bytes per sample). -/
def num_samples (audio : List Nat) : Nat :=
  audio.length / 2

/-- `AudioRecordingProcessor.__init__`: stores the configuration, adopts the
injected shared recorder if any, and only when recording is enabled and no
recorder was injected constructs a fresh recorder (modelled by the `fresh`
handle standing for `AudioRecorder()`) and calls `start_recording` on it with
the configured client id. Returns the constructed state and the trace of
recorder calls made during construction. -/
def AudioRecordingProcessor.init (enable_recording : Bool)
    (client_id : Option String) (record_input : Bool)
    (shared_recorder : Option AudioRecorder) (fresh : AudioRecorder) :
    AudioRecordingProcessor × List Event :=
  let cid := defaultClientId client_id
  let st : AudioRecordingProcessor :=
    { enable_recording := enable_recording
      client_id := cid
      record_input := record_input
      recorder := shared_recorder }
  if st.enable_recording && st.recorder.isNone then
    ({ st with recorder := some fresh },
      [Event.recorderCall fresh (RecorderCall.startRecording cid)])
  else
    (st, [])

/-- `AudioRecordingProcessor.process_frame`, one frame at a time.

* `StartFrame`: delegate to `super().process_frame` first, push the frame,
  and return early.
* Audio frames: when a recorder is attached, dispatch on the frame type —
  `OutputAudioRawFrame` is recorded only when `record_input` is false,
  `InputAudioRawFrame` only when `record_input` is true, and a legacy bare
  `AudioRawFrame` according to this instance's `record_input` setting; each
  record call is preceded by an info log carrying `num_samples`.
* `EndFrame` with a recorder attached and `record_input` true:
  `stop_recording()` then clear the local reference.
* Every non-`StartFrame` path falls through to the final `push_frame`. -/
def AudioRecordingProcessor.process_frame (st : AudioRecordingProcessor)
    (frame : Frame) (direction : FrameDirection) :
    AudioRecordingProcessor × List Event :=
  match frame with
  | Frame.startFrame =>
      (st, [Event.superProcessFrame frame direction,
            Event.pushFrame frame direction])
  | Frame.audioChunk tag audio =>
      let evs : List Event :=
        match st.recorder with
        | none => []
        | some r =>
            let ns := num_samples audio
            match tag with
            | DirectionTag.output =>
                if !st.record_input then
                  [Event.log ns,
                   Event.recorderCall r (RecorderCall.recordOutputAudio audio)]
                else []
            | DirectionTag.input =>
                if st.record_input then
                  [Event.log ns,
                   Event.recorderCall r (RecorderCall.recordInputAudio audio)]
                else []
            | DirectionTag.unspecified =>
                if st.record_input then
                  [Event.log ns,
                   Event.recorderCall r (RecorderCall.recordInputAudio audio)]
                else
                  [Event.log ns,
                   Event.recorderCall r (RecorderCall.recordOutputAudio audio)]
      (st, evs ++ [Event.pushFrame frame direction])
  | Frame.endFrame =>
      match st.recorder with
      | some r =>
          if st.record_input then
            ({ st with recorder := none },
              [Event.recorderCall r RecorderCall.stopRecording,
               Event.pushFrame frame direction])
          else
            (st, [Event.pushFrame frame direction])
      | none => (st, [Event.pushFrame frame direction])
  | Frame.other => (st, [Event.pushFrame frame direction])

/-- `AudioRecordingProcessor.cleanup`: stop and release the recorder, but
only from the input-side processor. -/
def AudioRecordingProcessor.cleanup (st : AudioRecordingProcessor) :
    AudioRecordingProcessor × List Event :=
  match st.recorder with
  | some r =>
      if st.record_input then
        ({ st with recorder := none },
          [Event.recorderCall r RecorderCall.stopRecording])
      else (st, [])
  | none => (st, [])

/-- Feed a sequence of frames to the processor, accumulating the trace. -/
def AudioRecordingProcessor.processFrames (st : AudioRecordingProcessor)
    (frames : List (Frame × FrameDirection)) :
    AudioRecordingProcessor × List Event :=
  match frames with
  | [] => (st, [])
  | (f, d) :: rest =>
      let p := st.process_frame f d
      let q := p.1.processFrames rest
      (q.1, p.2 ++ q.2)

/-- Project a trace event to the recorder call it makes, if any. -/
def Event.recorderCallOf : Event → Option RecorderCall
  | Event.recorderCall _ c => some c
  | _ => none

/-- All recorder-method calls in a trace, in order. -/
def recorderCalls (evs : List Event) : List RecorderCall :=
  evs.filterMap Event.recorderCallOf

/-- Project a trace event to the frame it pushes downstream, if any. -/
def Event.pushedOf : Event → Option (Frame × FrameDirection)
  | Event.pushFrame f d => some (f, d)
  | _ => none

/-- All frames pushed downstream by a trace, in order. -/
def pushedFrames (evs : List Event) : List (Frame × FrameDirection) :=
  evs.filterMap Event.pushedOf

/-- Whether a recorder call is `stop_recording`. -/
def RecorderCall.isStop : RecorderCall → Bool
  | RecorderCall.stopRecording => true
  | _ => false

/-- Number of `stop_recording` calls in a trace. -/
def stopCount (evs : List Event) : Nat :=
  (recorderCalls evs).countP RecorderCall.isStop

/-- The kind of an event, forgetting payloads: used to state that the shape
of the processor's behaviour does not depend on a chunk's byte content. -/
inductive EventKind where
  | recStart
  | recInput
  | recOutput
  | recStop
  | superCall
  | push
  | logged
deriving DecidableEq, Repr

/-- Forget an event's payload, keeping its kind. -/
def Event.kind : Event → EventKind
  | Event.recorderCall _ (RecorderCall.startRecording _) => EventKind.recStart
  | Event.recorderCall _ (RecorderCall.recordInputAudio _) => EventKind.recInput
  | Event.recorderCall _ (RecorderCall.recordOutputAudio _) => EventKind.recOutput
  | Event.recorderCall _ RecorderCall.stopRecording => EventKind.recStop
  | Event.superProcessFrame _ _ => EventKind.superCall
  | Event.pushFrame _ _ => EventKind.push
  | Event.log _ => EventKind.logged

/-! ## Helper lemmas -/

theorem recorderCalls_append (a b : List Event) :
    recorderCalls (a ++ b) = recorderCalls a ++ recorderCalls b := by
  simp [recorderCalls, List.filterMap_append]

theorem pushedFrames_append (a b : List Event) :
    pushedFrames (a ++ b) = pushedFrames a ++ pushedFrames b := by
  simp [pushedFrames, List.filterMap_append]

theorem stopCount_append (a b : List Event) :
    stopCount (a ++ b) = stopCount a + stopCount b := by
  simp [stopCount, recorderCalls_append, List.countP_append]

/-- `process_frame` either leaves the state unchanged or merely clears the
recorder reference. -/
theorem process_frame_state (st : AudioRecordingProcessor) (f : Frame)
    (d : FrameDirection) :
    (st.process_frame f d).1 = st ∨
      (st.process_frame f d).1 = { st with recorder := none } := by
  cases f with
  | startFrame => exact Or.inl rfl
  | endFrame =>
      cases h : st.recorder with
      | none => left; simp [AudioRecordingProcessor.process_frame, h]
      | some r =>
          by_cases hri : st.record_input <;>
            simp [AudioRecordingProcessor.process_frame, h, hri]
  | audioChunk tag audio => exact Or.inl rfl
  | other => exact Or.inl rfl

/-- `process_frame` never changes `record_input`. -/
theorem process_frame_record_input (st : AudioRecordingProcessor) (f : Frame)
    (d : FrameDirection) :
    (st.process_frame f d).1.record_input = st.record_input := by
  rcases process_frame_state st f d with h | h <;> rw [h]

/-- With no recorder attached, `process_frame` is pure pass-through: the state
is unchanged and no recorder call is made. -/
theorem process_frame_no_recorder (st : AudioRecordingProcessor) (f : Frame)
    (d : FrameDirection) (h : st.recorder = none) :
    (st.process_frame f d).1 = st ∧
      recorderCalls (st.process_frame f d).2 = [] := by
  cases f <;>
    simp [AudioRecordingProcessor.process_frame, h, recorderCalls,
      Event.recorderCallOf]

/-- With no recorder attached, feeding any frame sequence makes no recorder
call and never re-attaches a recorder. -/
theorem processFrames_no_recorder (st : AudioRecordingProcessor)
    (frames : List (Frame × FrameDirection)) (h : st.recorder = none) :
    (st.processFrames frames).1 = st ∧
      recorderCalls (st.processFrames frames).2 = [] := by
  induction frames generalizing st with
  | nil => exact ⟨rfl, rfl⟩
  | cons fd rest ih =>
      obtain ⟨f, d⟩ := fd
      obtain ⟨hst, hcalls⟩ := process_frame_no_recorder st f d h
      simp only [AudioRecordingProcessor.processFrames, recorderCalls_append,
        hst, hcalls]
      obtain ⟨hst2, hcalls2⟩ := ih st h
      simp [hst2, hcalls2]

/-- An output-side processor (`record_input = false`) never changes its state
and never calls `stop_recording` while processing a frame. -/
theorem process_frame_output_side (st : AudioRecordingProcessor) (f : Frame)
    (d : FrameDirection) (h : st.record_input = false) :
    (st.process_frame f d).1 = st ∧
      stopCount (st.process_frame f d).2 = 0 := by
  cases f with
  | startFrame =>
      exact ⟨rfl, rfl⟩
  | endFrame =>
      cases hr : st.recorder with
      | none =>
          simp [AudioRecordingProcessor.process_frame, hr, stopCount,
            recorderCalls, Event.recorderCallOf]
      | some r =>
          simp [AudioRecordingProcessor.process_frame, hr, h, stopCount,
            recorderCalls, Event.recorderCallOf]
  | audioChunk tag audio =>
      refine ⟨rfl, ?_⟩
      cases hr : st.recorder with
      | none =>
          simp [AudioRecordingProcessor.process_frame, hr, stopCount,
            recorderCalls, Event.recorderCallOf]
      | some r =>
          cases tag <;>
            simp [AudioRecordingProcessor.process_frame, hr, h, stopCount,
              recorderCalls, Event.recorderCallOf, RecorderCall.isStop]
  | other =>
      simp [AudioRecordingProcessor.process_frame, stopCount, recorderCalls,
        Event.recorderCallOf]

/-- An output-side processor never calls `stop_recording` over any frame
sequence, and its state is unchanged throughout. -/
theorem processFrames_output_side (st : AudioRecordingProcessor)
    (frames : List (Frame × FrameDirection)) (h : st.record_input = false) :
    (st.processFrames frames).1 = st ∧
      stopCount (st.processFrames frames).2 = 0 := by
  induction frames generalizing st with
  | nil => exact ⟨rfl, rfl⟩
  | cons fd rest ih =>
      obtain ⟨f, d⟩ := fd
      obtain ⟨hst, hstop⟩ := process_frame_output_side st f d h
      simp only [AudioRecordingProcessor.processFrames, stopCount_append, hst,
        hstop]
      obtain ⟨hst2, hstop2⟩ := ih st h
      simp [hst2, hstop2]

/-- Processing an audio chunk leaves the state unchanged and never calls
`stop_recording` or `start_recording`. -/
theorem process_frame_chunk_calls (st : AudioRecordingProcessor)
    (tag : DirectionTag) (audio : List Nat) (d : FrameDirection) :
    (st.process_frame (Frame.audioChunk tag audio) d).1 = st ∧
      stopCount (st.process_frame (Frame.audioChunk tag audio) d).2 = 0 := by
  refine ⟨rfl, ?_⟩
  cases hr : st.recorder with
  | none =>
      simp [AudioRecordingProcessor.process_frame, hr, stopCount,
        recorderCalls, Event.recorderCallOf]
  | some r =>
      cases tag <;> by_cases hri : st.record_input <;>
        simp [AudioRecordingProcessor.process_frame, hr, hri, stopCount,
          recorderCalls, Event.recorderCallOf, RecorderCall.isStop]

/-- Processing a list of audio chunks leaves the state unchanged and makes no
`stop_recording` call. -/
theorem processFrames_chunks (st : AudioRecordingProcessor)
    (chunks : List (DirectionTag × List Nat)) (d : FrameDirection) :
    (st.processFrames
        (chunks.map fun p => (Frame.audioChunk p.1 p.2, d))).1 = st ∧
      stopCount (st.processFrames
        (chunks.map fun p => (Frame.audioChunk p.1 p.2, d))).2 = 0 := by
  induction chunks generalizing st with
  | nil => exact ⟨rfl, rfl⟩
  | cons c rest ih =>
      obtain ⟨hst, hstop⟩ := process_frame_chunk_calls st c.1 c.2 d
      simp only [List.map_cons, AudioRecordingProcessor.processFrames,
        stopCount_append, hst, hstop]
      obtain ⟨hst2, hstop2⟩ := ih st
      simp [hst2, hstop2]

/-- `process_frame` pushes exactly its own frame, once. -/
theorem process_frame_pushes (st : AudioRecordingProcessor) (f : Frame)
    (d : FrameDirection) :
    pushedFrames (st.process_frame f d).2 = [(f, d)] := by
  cases f with
  | startFrame =>
      simp [AudioRecordingProcessor.process_frame, pushedFrames,
        Event.pushedOf]
  | endFrame =>
      cases hr : st.recorder with
      | none =>
          simp [AudioRecordingProcessor.process_frame, hr, pushedFrames,
            Event.pushedOf]
      | some r =>
          by_cases hri : st.record_input <;>
            simp [AudioRecordingProcessor.process_frame, hr, hri,
              pushedFrames, Event.pushedOf]
  | audioChunk tag audio =>
      cases hr : st.recorder with
      | none =>
          simp [AudioRecordingProcessor.process_frame, hr, pushedFrames,
            Event.pushedOf]
      | some r =>
          cases tag <;> by_cases hri : st.record_input <;>
            simp [AudioRecordingProcessor.process_frame, hr, hri,
              pushedFrames, Event.pushedOf]
  | other =>
      simp [AudioRecordingProcessor.process_frame, pushedFrames,
        Event.pushedOf]

/-- Splitting a frame sequence splits the run: the second half starts from
the state the first half ends in, and the traces concatenate. -/
theorem processFrames_append (st : AudioRecordingProcessor)
    (a b : List (Frame × FrameDirection)) :
    st.processFrames (a ++ b) =
      (((st.processFrames a).1.processFrames b).1,
        (st.processFrames a).2 ++ ((st.processFrames a).1.processFrames b).2) := by
  induction a generalizing st with
  | nil => simp [AudioRecordingProcessor.processFrames]
  | cons fd rest ih =>
      obtain ⟨f, d⟩ := fd
      simp [AudioRecordingProcessor.processFrames, ih, List.append_assoc]

/-- One unfolding step of `processFrames`. -/
theorem processFrames_cons (st : AudioRecordingProcessor) (f : Frame)
    (d : FrameDirection) (rest : List (Frame × FrameDirection)) :
    st.processFrames ((f, d) :: rest) =
      (((st.process_frame f d).1.processFrames rest).1,
        (st.process_frame f d).2 ++
          ((st.process_frame f d).1.processFrames rest).2) := rfl

/-- `EndFrame` on an input-side processor with an attached recorder: one
`stop_recording` call, the reference is cleared, and the frame is pushed. -/
theorem process_frame_end_input (en : Bool) (cid : String)
    (r : AudioRecorder) (d : FrameDirection) :
    (AudioRecordingProcessor.mk en cid true (some r)).process_frame
        Frame.endFrame d =
      (AudioRecordingProcessor.mk en cid true none,
        [Event.recorderCall r RecorderCall.stopRecording,
          Event.pushFrame Frame.endFrame d]) := rfl

/-! ## Claim theorems -/

/-- C2: for every sequence of N units fed to a processor, in any
configuration, exactly N units are pushed downstream, each exactly once, in
the order received and with unchanged payload: the pushed frames of the trace
are exactly the input sequence. -/
theorem claim_C2_passthrough (st : AudioRecordingProcessor)
    (frames : List (Frame × FrameDirection)) :
    pushedFrames (st.processFrames frames).2 = frames := by
  induction frames generalizing st with
  | nil => rfl
  | cons fd rest ih =>
      obtain ⟨f, d⟩ := fd
      simp only [AudioRecordingProcessor.processFrames, pushedFrames_append,
        process_frame_pushes]
      simp [ih]

/-- C3: an output-side processor (`record_input = false`) processing an
`InputAudioRawFrame` makes no recorder call at all, and an input-side
processor (`record_input = true`) processing an `OutputAudioRawFrame` makes
no recorder call at all, even with a recorder attached. -/
theorem claim_C3_direction_isolation (en en' : Bool) (cid cid' : String)
    (r r' : AudioRecorder) (audio audio' : List Nat) (d d' : FrameDirection) :
    recorderCalls
        ((AudioRecordingProcessor.mk en cid false (some r)).process_frame
          (Frame.audioChunk DirectionTag.input audio) d).2 = [] ∧
      recorderCalls
        ((AudioRecordingProcessor.mk en' cid' true (some r')).process_frame
          (Frame.audioChunk DirectionTag.output audio') d').2 = [] := by
  constructor <;>
    simp [AudioRecordingProcessor.process_frame, recorderCalls,
      Event.recorderCallOf]

/-- C4: with a recorder attached, a legacy chunk (`Unspecified` tag, a bare
`AudioRawFrame`) is recorded with the chunk's own bytes via
`record_input_audio` when this instance is input-side, and via
`record_output_audio` otherwise, for any payload. -/
theorem claim_C4_legacy_routing (en : Bool) (cid : String) (ri : Bool)
    (r : AudioRecorder) (audio : List Nat) (d : FrameDirection) :
    recorderCalls
        ((AudioRecordingProcessor.mk en cid ri (some r)).process_frame
          (Frame.audioChunk DirectionTag.unspecified audio) d).2 =
      [if ri then RecorderCall.recordInputAudio audio
       else RecorderCall.recordOutputAudio audio] := by
  cases ri <;>
    simp [AudioRecordingProcessor.process_frame, recorderCalls,
      Event.recorderCallOf]

/-- C8: processing a `StartFrame` first delegates to the parent frame
handler, then pushes the frame unchanged, with no recorder call and a fully
unchanged state (in particular the recorder reference is untouched). -/
theorem claim_C8_startFrame (st : AudioRecordingProcessor)
    (d : FrameDirection) :
    st.process_frame Frame.startFrame d =
        (st, [Event.superProcessFrame Frame.startFrame d,
              Event.pushFrame Frame.startFrame d]) ∧
      recorderCalls (st.process_frame Frame.startFrame d).2 = [] := by
  exact ⟨rfl, rfl⟩

/-- C10: an output-side processor never clears its recorder reference — its
state is entirely unchanged by any frame, including `EndFrame` — so an
`Output`-tagged or `Unspecified` chunk arriving after an `EndFrame` is still
recorded via `record_output_audio`. -/
theorem claim_C10_output_keeps_recorder (en : Bool) (cid : String)
    (rec : Option AudioRecorder) (r : AudioRecorder) (f : Frame)
    (audio audio' : List Nat) (d d' d'' : FrameDirection) :
    ((AudioRecordingProcessor.mk en cid false rec).process_frame f d).1 =
        AudioRecordingProcessor.mk en cid false rec ∧
      recorderCalls
        ((((AudioRecordingProcessor.mk en cid false (some r)).process_frame
            Frame.endFrame d).1).process_frame
          (Frame.audioChunk DirectionTag.output audio) d').2 =
        [RecorderCall.recordOutputAudio audio] ∧
      recorderCalls
        ((((AudioRecordingProcessor.mk en cid false (some r)).process_frame
            Frame.endFrame d).1).process_frame
          (Frame.audioChunk DirectionTag.unspecified audio') d'').2 =
        [RecorderCall.recordOutputAudio audio'] := by
    refine ⟨?_, ?_, ?_⟩
    · exact (process_frame_output_side _ f d rfl).1
    · simp [AudioRecordingProcessor.process_frame, recorderCalls,
        Event.recorderCallOf]
    · simp [AudioRecordingProcessor.process_frame, recorderCalls,
        Event.recorderCallOf]

/-- C1, counterexample: the claim fails when a shared recorder is injected.
A processor constructed with `enable_recording = false` but with an injected
shared recorder still records an input chunk, because `process_frame` gates
recording on the stored recorder reference, not on `enable_recording`. -/
theorem claim_C1_counterexample :
    RecorderCall.recordInputAudio [0, 0] ∈
      recorderCalls
        (((AudioRecordingProcessor.init false (some "c") true
              (some (AudioRecorder.mk 0)) (AudioRecorder.mk 1)).1).process_frame
          (Frame.audioChunk DirectionTag.input [0, 0])
          FrameDirection.downstream).2 := by
  decide

/-- C1, amended: a processor constructed with `enable_recording = false` and
no injected shared recorder never makes any recorder call — neither at
construction nor while processing any sequence of units. -/
theorem claim_C1_disabled_never_records (cid : Option String) (ri : Bool)
    (fresh : AudioRecorder) (frames : List (Frame × FrameDirection)) :
    recorderCalls
        ((AudioRecordingProcessor.init false cid ri none fresh).2 ++
          (((AudioRecordingProcessor.init false cid ri none fresh).1).processFrames
            frames).2) = [] := by
  have h1 : AudioRecordingProcessor.init false cid ri none fresh =
      (AudioRecordingProcessor.mk false (defaultClientId cid) ri none, []) := by
    simp [AudioRecordingProcessor.init]
  rw [h1]
  obtain ⟨-, h2⟩ := processFrames_no_recorder
    (AudioRecordingProcessor.mk false (defaultClientId cid) ri none) frames rfl
  rw [recorderCalls_append, h2]
  rfl

/-- C5: an input-side processor with an attached recorder stops it exactly
once on `EndFrame` and clears the reference; a second `EndFrame` only pushes
the frame (no recorder action), and no unit processed afterwards makes any
recorder call. -/
theorem claim_C5_stop_once (en : Bool) (cid : String) (r : AudioRecorder)
    (d d' : FrameDirection) (frames : List (Frame × FrameDirection)) :
    stopCount
        ((AudioRecordingProcessor.mk en cid true (some r)).process_frame
          Frame.endFrame d).2 = 1 ∧
      ((AudioRecordingProcessor.mk en cid true (some r)).process_frame
          Frame.endFrame d).1 = AudioRecordingProcessor.mk en cid true none ∧
      (AudioRecordingProcessor.mk en cid true none).process_frame
          Frame.endFrame d' =
        (AudioRecordingProcessor.mk en cid true none,
          [Event.pushFrame Frame.endFrame d']) ∧
      recorderCalls
        ((AudioRecordingProcessor.mk en cid true none).processFrames
          frames).2 = [] := by
  refine ⟨?_, rfl, rfl, ?_⟩
  · simp [AudioRecordingProcessor.process_frame, stopCount, recorderCalls,
      Event.recorderCallOf, RecorderCall.isStop]
  · exact (processFrames_no_recorder _ frames rfl).2

/-- C6: with two processors sharing one injected recorder, delivering one
`StartFrame`, any chunks, and one `EndFrame` to each side and then running
`cleanup` on both, the input side stops the recorder exactly once and the
output side never stops it. -/
theorem claim_C6_shared_single_stop (en en' : Bool) (cid cid' : String)
    (r : AudioRecorder) (chunksI chunksO : List (DirectionTag × List Nat))
    (d d' : FrameDirection) :
    stopCount
        (((AudioRecordingProcessor.mk en cid true (some r)).processFrames
            ((Frame.startFrame, d) ::
              (chunksI.map fun p => (Frame.audioChunk p.1 p.2, d)) ++
              [(Frame.endFrame, d)])).2 ++
          ((((AudioRecordingProcessor.mk en cid true (some r)).processFrames
              ((Frame.startFrame, d) ::
                (chunksI.map fun p => (Frame.audioChunk p.1 p.2, d)) ++
                [(Frame.endFrame, d)])).1).cleanup).2) = 1 ∧
      stopCount
        (((AudioRecordingProcessor.mk en' cid' false (some r)).processFrames
            ((Frame.startFrame, d') ::
              (chunksO.map fun p => (Frame.audioChunk p.1 p.2, d')) ++
              [(Frame.endFrame, d')])).2 ++
          ((((AudioRecordingProcessor.mk en' cid' false (some r)).processFrames
              ((Frame.startFrame, d') ::
                (chunksO.map fun p => (Frame.audioChunk p.1 p.2, d')) ++
                [(Frame.endFrame, d')])).1).cleanup).2) = 0 := by
  constructor
  · obtain ⟨hcst, hcstop⟩ := processFrames_chunks
      (AudioRecordingProcessor.mk en cid true (some r)) chunksI d
    have hrun :
        (AudioRecordingProcessor.mk en cid true (some r)).processFrames
            (((Frame.startFrame, d) ::
                chunksI.map fun p => (Frame.audioChunk p.1 p.2, d)) ++
              [(Frame.endFrame, d)]) =
          (AudioRecordingProcessor.mk en cid true none,
            [Event.superProcessFrame Frame.startFrame d,
              Event.pushFrame Frame.startFrame d] ++
              (((AudioRecordingProcessor.mk en cid true (some r)).processFrames
                  (chunksI.map fun p => (Frame.audioChunk p.1 p.2, d))).2 ++
                ([Event.recorderCall r RecorderCall.stopRecording,
                  Event.pushFrame Frame.endFrame d] ++ []))) := by
      rw [List.cons_append, processFrames_cons]
      rw [show (AudioRecordingProcessor.mk en cid true (some r)).process_frame
            Frame.startFrame d =
          (AudioRecordingProcessor.mk en cid true (some r),
            [Event.superProcessFrame Frame.startFrame d,
              Event.pushFrame Frame.startFrame d]) from rfl]
      rw [processFrames_append, hcst, processFrames_cons,
        process_frame_end_input]
      rfl
    rw [hrun]
    simp only [stopCount_append, hcstop]
    have hclean :
        (AudioRecordingProcessor.mk en cid true none).cleanup =
          (AudioRecordingProcessor.mk en cid true none, []) := rfl
    rw [hclean]
    rfl
  · obtain ⟨hst, hstop⟩ := processFrames_output_side
      (AudioRecordingProcessor.mk en' cid' false (some r))
      (((Frame.startFrame, d') ::
          chunksO.map fun p => (Frame.audioChunk p.1 p.2, d')) ++
        [(Frame.endFrame, d')]) rfl
    rw [stopCount_append, hstop, hst]
    rfl

/-- C9: construction starts a recorder exactly when recording is enabled and
no shared recorder was injected — in that case it stores a fresh recorder
and calls `start_recording` once with the configured client id; an injected
recorder is adopted with no recorder call; with recording disabled and no
injected recorder, no recorder is attached and no call is made. -/
theorem claim_C9_init (cid : Option String) (ri en : Bool)
    (fresh r : AudioRecorder) :
    AudioRecordingProcessor.init true cid ri none fresh =
        (AudioRecordingProcessor.mk true (defaultClientId cid) ri (some fresh),
          [Event.recorderCall fresh
            (RecorderCall.startRecording (defaultClientId cid))]) ∧
      AudioRecordingProcessor.init en cid ri (some r) fresh =
        (AudioRecordingProcessor.mk en (defaultClientId cid) ri (some r),
          []) ∧
      AudioRecordingProcessor.init false cid ri none fresh =
        (AudioRecordingProcessor.mk false (defaultClientId cid) ri none,
          []) := by
  refine ⟨?_, ?_, ?_⟩ <;> simp [AudioRecordingProcessor.init]

/-- C7: for an audio chunk of L bytes processed with an attached recorder,
the derived sample count is `L / 2` by truncating division (so `L / 2` for
even L and `(L - 1) / 2` for odd L, with no error case); every diagnostic
log record in the trace carries exactly that value; and the value never
influences control flow: the sequence of event kinds and the resulting state
are identical for any two payloads of the same tag, so only the logged
number (and the raw bytes handed to the recorder) vary with the payload. -/
theorem claim_C7_sample_count (en : Bool) (cid : String) (ri : Bool)
    (r : AudioRecorder) (tag : DirectionTag) (audio : List Nat)
    (d : FrameDirection) :
    num_samples audio = audio.length / 2 ∧
      (audio.length % 2 = 1 → num_samples audio = (audio.length - 1) / 2) ∧
      (∀ n, Event.log n ∈
          ((AudioRecordingProcessor.mk en cid ri (some r)).process_frame
            (Frame.audioChunk tag audio) d).2 → n = audio.length / 2) ∧
      (∀ audio2 : List Nat,
        ((AudioRecordingProcessor.mk en cid ri (some r)).process_frame
              (Frame.audioChunk tag audio2) d).2.map Event.kind =
            ((AudioRecordingProcessor.mk en cid ri (some r)).process_frame
              (Frame.audioChunk tag audio) d).2.map Event.kind ∧
          ((AudioRecordingProcessor.mk en cid ri (some r)).process_frame
              (Frame.audioChunk tag audio2) d).1 =
            AudioRecordingProcessor.mk en cid ri (some r)) := by
  refine ⟨rfl, ?_, ?_, ?_⟩
  · intro h
    simp only [num_samples]
    omega
  · intro n hn
    cases tag <;> cases ri <;>
      simp [AudioRecordingProcessor.process_frame, num_samples] at hn <;>
      omega
  · intro audio2
    refine ⟨?_, rfl⟩
    cases tag <;> cases ri <;>
      simp [AudioRecordingProcessor.process_frame, Event.kind]

/-- Witness for C7 at a concrete odd-length chunk (3 bytes): the derived
sample count is `3 / 2 = 1 = (3 - 1) / 2`. -/
theorem claim_C7_sample_count_witness :
    num_samples [0, 0, 0] = ([0, 0, 0] : List Nat).length / 2 ∧
      num_samples [0, 0, 0] = (([0, 0, 0] : List Nat).length - 1) / 2 :=
  ⟨(claim_C7_sample_count true "c" true (AudioRecorder.mk 0)
      DirectionTag.input [0, 0, 0] FrameDirection.downstream).1,
    (claim_C7_sample_count true "c" true (AudioRecorder.mk 0)
      DirectionTag.input [0, 0, 0] FrameDirection.downstream).2.1 (by decide)⟩

end RecordingProcessor
